import Mathlib

/-!
Verification of the AWS_MSK_IAM SASL authentication subsystem of this
librdkafka fork (`rdkafka_aws.c` and the builtin SASL AWS MSK IAM provider).

The development shallowly embeds the SigV4 signing pipeline (SHA-256,
HMAC-SHA-256, URI encoding, canonical request / string-to-sign / signature
construction, SASL payload construction) and the credential-store state
machine (`set_credential`, `set_credential_failure`, `client_new`,
`handle_server_response`) as pure Lean functions, and proves the spec
claims about them.
-/

namespace RdkafkaAws

/-- 2^32, the modulus for 32-bit words. -/
def M32 : Nat := 4294967296

/-- ASCII bytes of a string (all strings handled by this module are ASCII). -/
def strBytes (s : String) : List Nat := s.data.map Char.toNat

/-- Lowercase hexadecimal digit for a nibble, as produced by the
`sprintf("%02x", ...)` loops in `rdkafka_aws.c`. -/
def hexDigitLower (n : Nat) : Char :=
  if n < 10 then Char.ofNat (48 + n) else Char.ofNat (87 + n)

/-- Render a byte list as a lowercase hex string (the `%02x` loop). -/
def bytesToHexLower (bs : List Nat) : String :=
  ⟨bs.flatMap (fun b => [hexDigitLower (b / 16), hexDigitLower (b % 16)])⟩

/-- Right-rotation of a 32-bit word expressed over Nat. -/
def rotr32 (n x : Nat) : Nat := x / 2 ^ n + x % 2 ^ n * 2 ^ (32 - n)

/-- SHA-256 small sigma 0. -/
def ssig0 (x : Nat) : Nat := (rotr32 7 x) ^^^ (rotr32 18 x) ^^^ (x / 2 ^ 3)

/-- SHA-256 small sigma 1. -/
def ssig1 (x : Nat) : Nat := (rotr32 17 x) ^^^ (rotr32 19 x) ^^^ (x / 2 ^ 10)

/-- SHA-256 big Sigma 0. -/
def bsig0 (x : Nat) : Nat := (rotr32 2 x) ^^^ (rotr32 13 x) ^^^ (rotr32 22 x)

/-- SHA-256 big Sigma 1. -/
def bsig1 (x : Nat) : Nat := (rotr32 6 x) ^^^ (rotr32 11 x) ^^^ (rotr32 25 x)

/-- SHA-256 choice function; 32-bit complement is xor with 2^32 - 1. -/
def chf (x y z : Nat) : Nat := (x &&& y) ^^^ ((x ^^^ 4294967295) &&& z)

/-- SHA-256 majority function. -/
def majf (x y z : Nat) : Nat := (x &&& y) ^^^ (x &&& z) ^^^ (y &&& z)

/-- The 64 SHA-256 round constants. -/
def K256 : List Nat :=
  [1116352408, 1899447441, 3049323471, 3921009573,
   961987163, 1508970993, 2453635748, 2870763221,
   3624381080, 310598401, 607225278, 1426881987,
   1925078388, 2162078206, 2614888103, 3248222580,
   3835390401, 4022224774, 264347078, 604807628,
   770255983, 1249150122, 1555081692, 1996064986,
   2554220882, 2821834349, 2952996808, 3210313671,
   3336571891, 3584528711, 113926993, 338241895,
   666307205, 773529912, 1294757372, 1396182291,
   1695183700, 1986661051, 2177026350, 2456956037,
   2730485921, 2820302411, 3259730800, 3345764771,
   3516065817, 3600352804, 4094571909, 275423344,
   430227734, 506948616, 659060556, 883997877,
   958139571, 1322822218, 1537002063, 1747873779,
   1955562222, 2024104815, 2227730452, 2361852424,
   2428436474, 2756734187, 3204031479, 3329325298]

/-- The eight 32-bit words of a SHA-256 hash state. -/
structure Sha256State where
  a : Nat
  b : Nat
  c : Nat
  d : Nat
  e : Nat
  f : Nat
  g : Nat
  h : Nat

/-- Initial SHA-256 hash state. -/
def sha256Init : Sha256State :=
  ⟨1779033703, 3144134277, 1013904242, 2773480762,
   1359893119, 2600822924, 528734635, 1541459225⟩

/-- One SHA-256 round, consuming the pair (round constant, schedule word). -/
def sha256Round (s : Sha256State) (kw : Nat × Nat) : Sha256State :=
  let t1 := (s.h + bsig1 s.e + chf s.e s.f s.g + kw.1 + kw.2) % M32
  let t2 := (bsig0 s.a + majf s.a s.b s.c) % M32
  ⟨(t1 + t2) % M32, s.a, s.b, s.c, (s.d + t1) % M32, s.e, s.f, s.g⟩

/-- Extend the 16 message words of a block to the full 64-word schedule.
The accumulator holds the words generated so far, newest first. -/
def sha256SchedExt : Nat → List Nat → List Nat
  | 0, acc => acc.reverse
  | n + 1, acc =>
      let w := (ssig1 (acc.getD 1 0) + acc.getD 6 0
                + ssig0 (acc.getD 14 0) + acc.getD 15 0) % M32
      sha256SchedExt n (w :: acc)

/-- Compress one 16-word block into the running hash state. -/
def sha256Block (s : Sha256State) (ws : List Nat) : Sha256State :=
  let sched := sha256SchedExt 48 ws.reverse
  let t := (K256.zip sched).foldl sha256Round s
  ⟨(s.a + t.a) % M32, (s.b + t.b) % M32, (s.c + t.c) % M32, (s.d + t.d) % M32,
   (s.e + t.e) % M32, (s.f + t.f) % M32, (s.g + t.g) % M32, (s.h + t.h) % M32⟩

/-- Big-endian interpretation of a byte list as one natural number. -/
def bytesToNat (bs : List Nat) : Nat := bs.foldl (fun a b => a * 256 + b) 0

/-- Number of zero bytes of SHA-256 padding after the 0x80 byte. -/
def sha256PadZeros (len : Nat) : Nat := (64 + 56 - (len + 1) % 64) % 64

/-- The padded message as a single big-endian natural number. -/
def sha256PaddedNat (bs : List Nat) : Nat :=
  (bytesToNat bs * 256 + 128) <<< (8 * (sha256PadZeros bs.length + 8))
    + 8 * bs.length

/-- Number of 64-byte blocks of the padded message. -/
def sha256NumBlocks (len : Nat) : Nat := (len + 1 + sha256PadZeros len + 8) / 64

/-- The 16 words of block `j` (0-based) of the padded message. -/
def sha256BlockWords (padded nb j : Nat) : List Nat :=
  (List.range 16).map
    (fun i => (padded >>> (32 * (16 * nb - 16 * j - i - 1))) % M32)

/-- Iterate the compression over blocks `j, j+1, ...` (fuel-driven). -/
def sha256Blocks : Nat → Nat → Nat → Nat → Sha256State → Sha256State
  | 0, _, _, _, s => s
  | n + 1, padded, nb, j, s =>
      sha256Blocks n padded nb (j + 1) (sha256Block s (sha256BlockWords padded nb j))

/-- Big-endian bytes of one 32-bit word. -/
def wordBytes (w : Nat) : List Nat :=
  [w / 2 ^ 24 % 256, w / 2 ^ 16 % 256, w / 2 ^ 8 % 256, w % 256]

/-- Serialize a hash state to its 32 big-endian digest bytes. -/
def sha256Digest (s : Sha256State) : List Nat :=
  [s.a, s.b, s.c, s.d, s.e, s.f, s.g, s.h].flatMap wordBytes

/-- SHA-256 digest (32 bytes) of a byte list. -/
def sha256 (bs : List Nat) : List Nat :=
  let nb := sha256NumBlocks bs.length
  sha256Digest (sha256Blocks nb (sha256PaddedNat bs) nb 0 sha256Init)

/-- HMAC-SHA-256 over byte lists (RFC 2104 with a 64-byte block size). -/
def hmacSha256 (key msg : List Nat) : List Nat :=
  let k0 := if 64 < key.length then sha256 key else key
  let k := k0 ++ List.replicate (64 - k0.length) 0
  sha256 ((k.map (fun b => b ^^^ 92)) ++ sha256 ((k.map (fun b => b ^^^ 54)) ++ msg))

/-- Modelled from the spec: the source `rd_kafka_aws_uri_encode` delegates to
`curl_easy_escape`, an external library routine not part of this repository.
Per the spec it leaves the unreserved set `A-Z a-z 0-9 - _ . ~` unchanged and
percent-encodes every other byte with uppercase hex digits.  This predicate
recognises the unreserved bytes. -/
def uriUnreserved (b : Nat) : Bool :=
  decide ((48 ≤ b ∧ b ≤ 57) ∨ (65 ≤ b ∧ b ≤ 90) ∨ (97 ≤ b ∧ b ≤ 122) ∨
          b = 45 ∨ b = 95 ∨ b = 46 ∨ b = 126)

/-- Uppercase hexadecimal digit for a nibble. -/
def hexDigitUpper (n : Nat) : Char :=
  if n < 10 then Char.ofNat (48 + n) else Char.ofNat (55 + n)

/-- Modelled from the spec: percent-escape of one byte, `curl_easy_escape`
style (unreserved bytes verbatim, everything else `%HH` with uppercase hex). -/
def uriEncodeByte (b : Nat) : List Char :=
  if uriUnreserved b then [Char.ofNat b]
  else ['%', hexDigitUpper (b / 16), hexDigitUpper (b % 16)]

/-- Modelled from the spec: URI percent-encoding of a string, the semantics of
`rd_kafka_aws_uri_encode` (which calls the external `curl_easy_escape`). -/
def rd_kafka_aws_uri_encode (s : String) : String :=
  ⟨(strBytes s).flatMap uriEncodeByte⟩

/-- Embeds `rd_kafka_aws_construct_amz_date`: `"%sT%sZ"`. -/
def rd_kafka_aws_construct_amz_date (ymd hms : String) : String :=
  ymd ++ "T" ++ hms ++ "Z"

/-- Embeds `rd_kafka_aws_construct_credential_scope`:
`"%s/%s/%s/aws4_request"`. -/
def rd_kafka_aws_construct_credential_scope (ymd aws_region aws_service : String) : String :=
  ymd ++ "/" ++ aws_region ++ "/" ++ aws_service ++ "/aws4_request"

/-- Embeds `rd_kafka_aws_construct_authorization_header`. -/
def rd_kafka_aws_construct_authorization_header (algorithm aws_access_key_id credential_scope signed_headers signature : String) : String :=
  algorithm ++ " Credential=" ++ aws_access_key_id ++ "/" ++ credential_scope
    ++ ", SignedHeaders=" ++ signed_headers ++ ", Signature=" ++ signature

/-- Embeds `rd_kafka_aws_build_canonical_request`: the str_builder appends
`method`, newline, the literal canonical URI `"/"`, newline, query string,
newline, canonical headers, newline, signed headers, newline, and the
lowercase-hex SHA-256 of the request body. -/
def rd_kafka_aws_build_canonical_request (method canonical_query_string canonical_headers signed_headers request_parameters : String) : String :=
  method ++ "\n" ++ "/" ++ "\n" ++ canonical_query_string ++ "\n"
    ++ canonical_headers ++ "\n" ++ signed_headers ++ "\n"
    ++ bytesToHexLower (sha256 (strBytes request_parameters))

/-- Embeds `rd_kafka_aws_build_string_to_sign`. -/
def rd_kafka_aws_build_string_to_sign (algorithm credential_scope amz_date canonical_request : String) : String :=
  algorithm ++ "\n" ++ amz_date ++ "\n" ++ credential_scope ++ "\n"
    ++ bytesToHexLower (sha256 (strBytes canonical_request))

/-- Embeds `rd_kafka_aws_build_signature`: the nested HMAC-SHA-256 key chain
date -> region -> service -> aws4_request, keyed initially by the UTF-8
concatenation `"AWS4" + secret`, rendered as lowercase hex. -/
def rd_kafka_aws_build_signature (aws_secret_access_key aws_region ymd aws_service string_to_sign : String) : String :=
  let date_key := strBytes ("AWS4" ++ aws_secret_access_key)
  let hmac_date_key := hmacSha256 date_key (strBytes ymd)
  let hmac_date_region_key := hmacSha256 hmac_date_key (strBytes aws_region)
  let hmac_date_region_service_key := hmacSha256 hmac_date_region_key (strBytes aws_service)
  let hmac_signing_key := hmacSha256 hmac_date_region_service_key (strBytes "aws4_request")
  bytesToHexLower (hmacSha256 hmac_signing_key (strBytes string_to_sign))

/-- Embeds `rd_kafka_aws_build_sasl_canonical_querystring`: the fixed-order
query string Action, X-Amz-Algorithm, X-Amz-Credential, X-Amz-Date,
X-Amz-Expires=900, optional X-Amz-Security-Token, X-Amz-SignedHeaders=host,
with the Action, Credential, Date and Security-Token values URI-encoded. -/
def rd_kafka_aws_build_sasl_canonical_querystring (action aws_access_key_id aws_region ymd hms aws_service : String) (aws_security_token : Option String) : String :=
  let credential_scope := rd_kafka_aws_construct_credential_scope ymd aws_region aws_service
  let credential := aws_access_key_id ++ "/" ++ credential_scope
  let amz_date := rd_kafka_aws_construct_amz_date ymd hms
  "Action=" ++ rd_kafka_aws_uri_encode action ++ "&"
    ++ "X-Amz-Algorithm=AWS4-HMAC-SHA256&"
    ++ "X-Amz-Credential=" ++ rd_kafka_aws_uri_encode credential ++ "&"
    ++ "X-Amz-Date=" ++ rd_kafka_aws_uri_encode amz_date ++ "&"
    ++ "X-Amz-Expires=900&"
    ++ (match aws_security_token with
        | some t => "X-Amz-Security-Token=" ++ rd_kafka_aws_uri_encode t ++ "&"
        | none => "")
    ++ "X-Amz-SignedHeaders=host"

/-- Embeds `rd_kafka_aws_build_sasl_payload`: derives the canonical request,
string-to-sign and signature from its arguments and emits the JSON payload,
inserting the raw (un-encoded) security token field exactly when a token is
present. -/
def rd_kafka_aws_build_sasl_payload (ymd hms host aws_access_key_id aws_secret_access_key : String) (aws_security_token : Option String) (aws_region aws_service method algorithm canonical_headers canonical_querystring signed_headers request_parameters : String) : String :=
  let canonical_request := rd_kafka_aws_build_canonical_request method
    canonical_querystring canonical_headers signed_headers request_parameters
  let credential_scope := rd_kafka_aws_construct_credential_scope ymd aws_region aws_service
  let amz_date := rd_kafka_aws_construct_amz_date ymd hms
  let string_to_sign := rd_kafka_aws_build_string_to_sign algorithm
    credential_scope amz_date canonical_request
  let signature := rd_kafka_aws_build_signature aws_secret_access_key
    aws_region ymd aws_service string_to_sign
  "\x7b\"version\":\"2020_10_22\","
    ++ "\"host\":\"" ++ host ++ "\","
    ++ "\"user-agent\":\"librdkafka\","
    ++ "\"action\":\"" ++ "kafka-cluster:Connect" ++ "\","
    ++ "\"x-amz-algorithm\":\"AWS4-HMAC-SHA256\","
    ++ "\"x-amz-credential\":\"" ++ aws_access_key_id ++ "/" ++ credential_scope ++ "\","
    ++ "\"x-amz-date\":\"" ++ amz_date ++ "\","
    ++ (match aws_security_token with
        | some t => "\"x-amz-security-token\":\"" ++ t ++ "\","
        | none => "")
    ++ "\"x-amz-signedheaders\":\"host\","
    ++ "\"x-amz-expires\":\"900\","
    ++ "\"x-amz-signature\":\"" ++ signature ++ "\"\x7d"

end RdkafkaAws

namespace RdkafkaAws

/-- Kafka response error codes used by the embedded lifecycle functions. -/
inductive RespErr where
  | NO_ERROR
  | INVALID_ARG
  | STATE
  deriving DecidableEq, Repr

/-- Observable side effects of the credential-store writers, in program
order: write-lock acquire and release, timer (re)scheduling with its relative
interval in microseconds, broker wake-up, and the asynchronous
ERR__AUTHENTICATION error event with its rendered text. -/
inductive HEvent where
  | wrlock
  | wrunlock
  | timer_start (interval_us : Int)
  | wake_all
  | op_err (msg : String)
  deriving DecidableEq, Repr

/-- The per-client handle fields of `rd_kafka_sasl_aws_msk_iam_handle_t`
that the lifecycle claims are about (NULL pointers become `none`). -/
structure Handle where
  aws_access_key_id : Option String
  aws_secret_access_key : Option String
  aws_region : Option String
  aws_security_token : Option String
  errstr : Option String
  deriving DecidableEq, Repr

/-- Result of `rd_kafka_aws_msk_iam_set_credential`: the returned error code,
the handle after the call, the emitted effect trace, and the text written to
the caller-provided `errstr` buffer on failure. -/
structure SetCredResult where
  err : RespErr
  handle : Handle
  events : List HEvent
  out_errstr : Option String
  deriving DecidableEq, Repr

/-- Embeds `rd_kafka_aws_msk_iam_set_credential` from the SASL AWS MSK IAM
provider.  `configured` models the guard that SASL/AWS_MSK_IAM is the
configured provider and the handle exists; `now_wallclock_us` is the
`rd_uclock()` sample in microseconds; `md_lifetime_ms` is the expiry in unix
milliseconds.  Times are nonnegative in practice, so Euclidean and C
truncating division agree at the division sites. -/
def rd_kafka_aws_msk_iam_set_credential (configured : Bool) (h : Handle)
    (aws_access_key_id aws_secret_access_key aws_region : String)
    (aws_security_token : Option String)
    (md_lifetime_ms now_wallclock_us : Int) : SetCredResult :=
  if !configured then
    ⟨.STATE, h, [],
     some "SASL/AWS_MSK_IAM is not the configured authentication mechanism"⟩
  else
    let wts_md_lifetime := md_lifetime_ms * 1000
    if wts_md_lifetime ≤ now_wallclock_us then
      ⟨.INVALID_ARG, h, [],
       some ("Must supply an unexpired token: now="
             ++ toString (now_wallclock_us / 1000) ++ "ms, exp="
             ++ toString (wts_md_lifetime / 1000) ++ "ms")⟩
    else
      let interval := (wts_md_lifetime - now_wallclock_us) * 8 / 10
      ⟨.NO_ERROR,
       { aws_access_key_id := some aws_access_key_id,
         aws_secret_access_key := some aws_secret_access_key,
         aws_region := some aws_region,
         aws_security_token := aws_security_token,
         errstr := none },
       [.wrlock, .timer_start interval, .wrunlock, .wake_all],
       none⟩

/-- Embeds `rd_kafka_aws_msk_iam_set_credential_failure`.  The timer is
restarted for 10 seconds (10000000 us) before the error string is examined;
a NULL or empty error string then returns with the handle unchanged, and
otherwise the stored `errstr` is replaced and an ERR__AUTHENTICATION event is
emitted only when the new string differs from the stored one. -/
def rd_kafka_aws_msk_iam_set_credential_failure (configured : Bool)
    (h : Handle) (errstr : Option String) : Handle × List HEvent :=
  if !configured then (h, [])
  else
    let base : List HEvent := [.wrlock, .timer_start 10000000]
    match errstr with
    | none => (h, base ++ [.wrunlock])
    | some e =>
      if e = "" then (h, base ++ [.wrunlock])
      else
        let error_changed : Bool := match h.errstr with
          | none => true
          | some old => decide (old ≠ e)
        ({ h with errstr := some e },
         base ++ [.wrunlock]
           ++ (if error_changed then
                 [.op_err ("Failed to acquire SASL AWS_MSK_IAM credential: " ++ e)]
               else []))

/-- The per-connection snapshot fields of
`struct rd_kafka_sasl_aws_msk_iam_state` copied in `client_new`. -/
structure ConnState where
  hostname : String
  aws_access_key_id : String
  aws_secret_access_key : String
  aws_region : String
  aws_security_token : Option String
  deriving DecidableEq, Repr

/-- Embeds the credential-snapshot part of
`rd_kafka_sasl_aws_msk_iam_client_new`: under the read lock, fail when any of
the three mandatory credential fields is absent, fail when STS mode is on but
no security token is stored, and otherwise copy every credential field into
the per-connection state. -/
def rd_kafka_sasl_aws_msk_iam_client_new (h : Handle)
    (enable_use_sts : Bool) (hostname : String) : Except String ConnState :=
  match h.aws_access_key_id, h.aws_secret_access_key, h.aws_region with
  | some k, some s, some r =>
    if enable_use_sts && h.aws_security_token.isNone then
      .error ("AWS_MSK_IAM_STS cannot authenticate; last error: "
              ++ h.errstr.getD "(not available)")
    else
      .ok ⟨hostname, k, s, r, h.aws_security_token⟩
  | _, _, _ =>
    .error ("AWS_MSK_IAM cannot log in because there "
            ++ "is no credentials available; last error: "
            ++ h.errstr.getD "(not available)")

/-- Result of `rd_kafka_sasl_aws_msk_iam_handle_server_response`: the return
value, whether `rd_kafka_sasl_auth_done` was invoked, and the text written to
the `errstr` buffer. -/
structure ServerRespResult where
  ret : Int
  auth_done : Bool
  errstr : Option String
  deriving DecidableEq, Repr

/-- Render a byte list as the string `%s` produces for it. -/
def bytesAsString (bs : List Nat) : String := ⟨bs.map Char.ofNat⟩

/-- Embeds `rd_kafka_sasl_aws_msk_iam_handle_server_response`: on a NON-empty
server response (`in->size` nonzero) it calls `rd_kafka_sasl_auth_done` and
returns 0; on an EMPTY response it formats the failure message into `errstr`
and returns -1. -/
def rd_kafka_sasl_aws_msk_iam_handle_server_response (resp : List Nat) : ServerRespResult :=
  if resp.length ≠ 0 then ⟨0, true, none⟩
  else ⟨-1, false,
        some ("SASL AWS MSK IAM authentication failed: Broker response: "
              ++ bytesAsString resp)⟩

end RdkafkaAws

namespace RdkafkaAws

/-- Parse exactly `n` decimal digits, returning the value and the rest
(the fixed-width `%4d` / `%2d` conversions on the documented
`YYYY-MM-DDTHH:MM:SS[.fff]Z` layout). -/
def parseDigits : Nat → Nat → List Char → Option (Nat × List Char)
  | 0, acc, cs => some (acc, cs)
  | n + 1, acc, c :: cs =>
      if c.isDigit then parseDigits n (acc * 10 + (c.toNat - 48)) cs else none
  | _ + 1, _, [] => none

/-- Consume one expected literal character. -/
def expectChar (c : Char) : List Char → Option (List Char)
  | d :: cs => if d = c then some cs else none
  | [] => none

/-- Split a leading run of decimal digits off a character list. -/
def splitDigits : List Char → List Char × List Char
  | [] => ([], [])
  | c :: cs =>
      if c.isDigit then
        let p := splitDigits cs
        (c :: p.1, p.2)
      else ([], c :: cs)

/-- Decimal value of a digit list. -/
def digitsVal (ds : List Char) : Nat := ds.foldl (fun a c => a * 10 + (c.toNat - 48)) 0

/-- Parse the `%f` seconds field as the C code uses it: the float is
truncated to an integer by the `tm.tm_sec = secf` assignment, so only the
integer part is kept; an optional `.fff` fraction is consumed and dropped. -/
def parseSeconds (cs : List Char) : Option (Nat × List Char) :=
  let p := splitDigits cs
  if p.1.isEmpty then none
  else
    match p.2 with
    | '.' :: rest =>
        let q := splitDigits rest
        some (digitsVal p.1, q.2)
    | rest => some (digitsVal p.1, rest)

/-- Parse an STS `Expiration` timestamp `YYYY-MM-DDTHH:MM:SS[.fff]Z` into
(year, month, day, hour, minute, second), mirroring the
`sscanf("%4d-%2d-%2dT%2d:%2d:%fZ")` call in `rd_kafka_aws_send_request`
on the documented fixed-width layout. -/
def parseExpiration (s : String) : Option (Nat × Nat × Nat × Nat × Nat × Nat) := do
  let (y, r1) ← parseDigits 4 0 s.data
  let r2 ← expectChar '-' r1
  let (mo, r3) ← parseDigits 2 0 r2
  let r4 ← expectChar '-' r3
  let (d, r5) ← parseDigits 2 0 r4
  let r6 ← expectChar 'T' r5
  let (hh, r7) ← parseDigits 2 0 r6
  let r8 ← expectChar ':' r7
  let (mi, r9) ← parseDigits 2 0 r8
  let r10 ← expectChar ':' r9
  let (ss, r11) ← parseSeconds r10
  let _ ← expectChar 'Z' r11
  pure (y, mo, d, hh, mi, ss)

/-- Days from 1970-01-01 to the given civil date (proleptic Gregorian). -/
def daysFromCivil (y m d : Int) : Int :=
  let y2 := if m ≤ 2 then y - 1 else y
  let era := y2 / 400
  let yoe := y2 - era * 400
  let mp := if 2 < m then m - 3 else m + 9
  let doy := (153 * mp + 2) / 5 + d - 1
  let doe := yoe * 365 + yoe / 4 - yoe / 100 + doy
  era * 146097 + doe - 719468

/-- Unix seconds of a broken-down UTC time.  The C code converts the parsed
fields with `mktime`, which interprets them in the local time zone; the
timestamps are documented as UTC, so the conversion is modelled as the UTC
(`timegm`) one. -/
def epochSecUTC (y mo d hh mi ss : Nat) : Int :=
  daysFromCivil (Int.ofNat y) (Int.ofNat mo) (Int.ofNat d) * 86400
    + Int.ofNat hh * 3600 + Int.ofNat mi * 60 + Int.ofNat ss

/-- Embeds the `Expiration`-handling tail of `rd_kafka_aws_send_request`
(lines 733-755): given the credential lifetime already stored before the
call and the optional `Expiration` element text, the lifetime is overwritten
with `epochSec * 1000` only when the sscanf succeeds and the epoch is
positive; otherwise the stored value is kept. -/
def rd_kafka_aws_send_request_lifetime (cur : Int) (expiration : Option String) : Int :=
  match expiration with
  | none => cur
  | some s =>
    match parseExpiration s with
    | some (y, mo, d, hh, mi, ss) =>
        let epochSec := epochSecUTC y mo d hh mi ss
        if 0 < epochSec then epochSec * 1000 else cur
    | none => cur

/-- Embeds the unconditional pre-call expiry assignment of
`rd_kafka_aws_msk_iam_credential_refresh0` (line 346-347):
`credential->md_lifetime_ms = rd_uclock() / 1000 + duration_sec * 1000`.
Both operands are nonnegative in practice, so Euclidean and C truncating
division agree. -/
def rd_kafka_aws_msk_iam_credential_refresh0_lifetime (now_us duration_sec : Int) : Int :=
  now_us / 1000 + duration_sec * 1000

/-- The credential lifetime actually installed by a refresh: the fallback is
computed before the STS call and `rd_kafka_aws_send_request` may overwrite
it from the response. -/
def refresh_installed_lifetime (now_us duration_sec : Int) (expiration : Option String) : Int :=
  rd_kafka_aws_send_request_lifetime
    (rd_kafka_aws_msk_iam_credential_refresh0_lifetime now_us duration_sec)
    expiration

end RdkafkaAws

namespace RdkafkaAws

/-- The sixteen lowercase hexadecimal digit characters. -/
def lowercaseHexChars : List Char := "0123456789abcdef".data

/-- The sixteen uppercase hexadecimal digit characters. -/
def uppercaseHexChars : List Char := "0123456789ABCDEF".data

lemma hexDigitLower_mem : ∀ n, n < 16 → hexDigitLower n ∈ lowercaseHexChars := by
  decide

lemma hexDigitUpper_mem : ∀ n, n < 16 → hexDigitUpper n ∈ uppercaseHexChars := by
  decide

lemma sha256Digest_lt (s : Sha256State) : ∀ b ∈ sha256Digest s, b < 256 := by
  intro b hb
  obtain ⟨w, hw, hbw⟩ := List.mem_flatMap.mp hb
  simp only [wordBytes, List.mem_cons, List.not_mem_nil, or_false] at hbw
  rcases hbw with h1 | h1 | h1 | h1 <;> subst h1 <;>
    exact Nat.mod_lt _ (by norm_num)

lemma sha256_lt (bs : List Nat) : ∀ b ∈ sha256 bs, b < 256 := by
  intro b hb
  exact sha256Digest_lt _ b hb

lemma hmacSha256_lt (k m : List Nat) : ∀ b ∈ hmacSha256 k m, b < 256 := by
  intro b hb
  exact sha256_lt _ b hb

lemma mem_bytesToHexLower (bs : List Nat) (hbs : ∀ b ∈ bs, b < 256) :
    ∀ c ∈ (bytesToHexLower bs).data, c ∈ lowercaseHexChars := by
  intro c hc
  have hc2 : c ∈ bs.flatMap (fun b => [hexDigitLower (b / 16), hexDigitLower (b % 16)]) := hc
  obtain ⟨b, hb, hcb⟩ := List.mem_flatMap.mp hc2
  have hblt : b < 256 := hbs b hb
  simp only [List.mem_cons, List.not_mem_nil, or_false] at hcb
  rcases hcb with h1 | h1 <;> subst h1
  · exact hexDigitLower_mem _ (by omega)
  · exact hexDigitLower_mem _ (Nat.mod_lt _ (by norm_num))

end RdkafkaAws

namespace RdkafkaAws

/-- C1: the claim says authentication succeeds iff the server response is
empty.  The code does the opposite: on the empty response it returns -1
without calling `rd_kafka_sasl_auth_done`, and on the one-byte response
`"A"` it succeeds with no error text. -/
theorem C1_counterexample :
    (rd_kafka_sasl_aws_msk_iam_handle_server_response []).ret = -1 ∧
    (rd_kafka_sasl_aws_msk_iam_handle_server_response []).auth_done = false ∧
    (rd_kafka_sasl_aws_msk_iam_handle_server_response [65]).ret = 0 ∧
    (rd_kafka_sasl_aws_msk_iam_handle_server_response [65]).auth_done = true ∧
    (rd_kafka_sasl_aws_msk_iam_handle_server_response [65]).errstr = none := by
  decide

/-- C1 (amended): for every server response delivered in the
AWAIT_RESPONSE state, the attempt succeeds (auth-done, return 0, no error
text) if and only if the response is NON-empty; for every empty response it
fails with return -1 and an error text that is the fixed failure message
rendered with the empty response buffer, so the server-supplied bytes are
never used as error text. -/
theorem C1_theorem (resp : List Nat) :
    ((rd_kafka_sasl_aws_msk_iam_handle_server_response resp).auth_done = true ↔
      resp ≠ []) ∧
    (resp ≠ [] →
      rd_kafka_sasl_aws_msk_iam_handle_server_response resp = ⟨0, true, none⟩) ∧
    (resp = [] →
      rd_kafka_sasl_aws_msk_iam_handle_server_response resp =
        ⟨-1, false,
         some ("SASL AWS MSK IAM authentication failed: Broker response: "
               ++ bytesAsString resp)⟩) := by
  by_cases h : resp = [] <;>
    simp [rd_kafka_sasl_aws_msk_iam_handle_server_response, h,
          List.length_eq_zero]

/-- Witness for C1: the non-empty response `[65]` is accepted. -/
theorem C1_witness :
    rd_kafka_sasl_aws_msk_iam_handle_server_response [65] = ⟨0, true, none⟩ :=
  (C1_theorem [65]).2.1 (by decide)

/-- C10: a NULL or empty error string still restarts the 10-second retry
timer, but leaves the whole handle (including the stored last-error)
unchanged and emits no authentication-error event. -/
theorem C10_theorem (h : Handle) :
    rd_kafka_aws_msk_iam_set_credential_failure true h none
      = (h, [.wrlock, .timer_start 10000000, .wrunlock]) ∧
    rd_kafka_aws_msk_iam_set_credential_failure true h (some "")
      = (h, [.wrlock, .timer_start 10000000, .wrunlock]) := by
  constructor <;> rfl

/-- C7: a non-empty error string leaves the four stored credential fields
unchanged, reschedules the refresh 10 seconds (10000000 us) out, stores the
new error string, and emits the ERR__AUTHENTICATION event with text
"Failed to acquire SASL AWS_MSK_IAM credential: {errstr}" exactly when the
new error string differs from the stored last-error. -/
theorem C7_theorem (h : Handle) (e : String) (he : e ≠ "") :
    (rd_kafka_aws_msk_iam_set_credential_failure true h (some e)).1
      = { h with errstr := some e } ∧
    (rd_kafka_aws_msk_iam_set_credential_failure true h (some e)).2
      = [.wrlock, .timer_start 10000000, .wrunlock]
        ++ (if h.errstr = some e then []
            else [.op_err ("Failed to acquire SASL AWS_MSK_IAM credential: "
                           ++ e)]) := by
  rcases h with ⟨ak, sk, rg, tok, olderr⟩
  cases olderr with
  | none =>
      simp [rd_kafka_aws_msk_iam_set_credential_failure, he]
  | some old =>
      by_cases heq : old = e <;>
        simp [rd_kafka_aws_msk_iam_set_credential_failure, he, heq]

/-- Witness for C7: a fresh error on a handle holding the error "x" is
stored and emits the event; the credential fields survive. -/
theorem C7_witness :
    (rd_kafka_aws_msk_iam_set_credential_failure true
       ⟨some "AK", some "SK", some "us-east-1", none, some "x"⟩ (some "y")).2
      = [.wrlock, .timer_start 10000000, .wrunlock,
         .op_err "Failed to acquire SASL AWS_MSK_IAM credential: y"] := by
  have h := C7_theorem ⟨some "AK", some "SK", some "us-east-1", none, some "x"⟩
    "y" (by decide)
  rw [h.2]
  decide

end RdkafkaAws

namespace RdkafkaAws

/-- C6: with the AWS_MSK_IAM provider configured, `set_credential` rejects
any call whose expiry (converted to microseconds) is not in the future,
returning INVALID_ARG and leaving the handle and timer untouched; an
accepted call replaces all four credential fields, clears the stored error,
schedules the refresh timer for 8/10 of the remaining lifetime, and wakes
the broker threads after the write lock is released (the wake event follows
the unlock event in the trace). -/
theorem C6_theorem (h : Handle) (akid sk rg : String) (tok : Option String)
    (md_lifetime_ms now_us : Int) :
    (md_lifetime_ms * 1000 ≤ now_us →
      rd_kafka_aws_msk_iam_set_credential true h akid sk rg tok
          md_lifetime_ms now_us
        = ⟨.INVALID_ARG, h, [],
           some ("Must supply an unexpired token: now="
                 ++ toString (now_us / 1000) ++ "ms, exp="
                 ++ toString (md_lifetime_ms * 1000 / 1000) ++ "ms")⟩) ∧
    (now_us < md_lifetime_ms * 1000 →
      rd_kafka_aws_msk_iam_set_credential true h akid sk rg tok
          md_lifetime_ms now_us
        = ⟨.NO_ERROR,
           ⟨some akid, some sk, some rg, tok, none⟩,
           [.wrlock,
            .timer_start ((md_lifetime_ms * 1000 - now_us) * 8 / 10),
            .wrunlock, .wake_all],
           none⟩) := by
  constructor
  · intro hc
    simp [rd_kafka_aws_msk_iam_set_credential, hc]
  · intro hc
    simp [rd_kafka_aws_msk_iam_set_credential, not_le.mpr hc]

/-- Witness for C6: a remaining lifetime of 1000 ms (expiry 1000 ms, now 0)
is accepted and schedules the timer at +800000 us = +800 ms; an already
expired credential (expiry 1 ms at now 2000 us) is rejected unchanged. -/
theorem C6_witness :
    (rd_kafka_aws_msk_iam_set_credential true
        ⟨none, none, none, none, some "old"⟩ "AK" "SK" "us-east-1" none
        1000 0).events
      = [.wrlock, .timer_start 800000, .wrunlock, .wake_all] ∧
    (rd_kafka_aws_msk_iam_set_credential true
        ⟨none, none, none, none, some "old"⟩ "AK" "SK" "us-east-1" none
        1 2000).err = .INVALID_ARG ∧
    (rd_kafka_aws_msk_iam_set_credential true
        ⟨none, none, none, none, some "old"⟩ "AK" "SK" "us-east-1" none
        1 2000).handle = ⟨none, none, none, none, some "old"⟩ := by
  have h1 := (C6_theorem ⟨none, none, none, none, some "old"⟩ "AK" "SK"
    "us-east-1" none 1000 0).2 (by decide)
  have h2 := (C6_theorem ⟨none, none, none, none, some "old"⟩ "AK" "SK"
    "us-east-1" none 1 2000).1 (by decide)
  refine ⟨?_, ?_, ?_⟩
  · rw [h1]; decide
  · rw [h2]
  · rw [h2]

/-- C8: creating a per-connection authenticator fails with the
"no credentials available" error whenever any of the access key id, secret
access key or region is missing from the handle; fails with the
session-token-required error when STS mode is on but no token is stored;
and otherwise snapshots every credential field into the per-connection
state. -/
theorem C8_theorem (h : Handle) (sts : Bool) (host : String) :
    (h.aws_access_key_id = none ∨ h.aws_secret_access_key = none ∨
        h.aws_region = none →
      rd_kafka_sasl_aws_msk_iam_client_new h sts host
        = .error ("AWS_MSK_IAM cannot log in because there "
                  ++ "is no credentials available; last error: "
                  ++ h.errstr.getD "(not available)")) ∧
    (∀ k s r, h.aws_access_key_id = some k →
        h.aws_secret_access_key = some s → h.aws_region = some r →
      (sts = true → h.aws_security_token = none →
        rd_kafka_sasl_aws_msk_iam_client_new h sts host
          = .error ("AWS_MSK_IAM_STS cannot authenticate; last error: "
                    ++ h.errstr.getD "(not available)")) ∧
      ((sts = true → h.aws_security_token ≠ none) →
        rd_kafka_sasl_aws_msk_iam_client_new h sts host
          = .ok ⟨host, k, s, r, h.aws_security_token⟩)) := by
  rcases h with ⟨ak, sk, rg, tok, err⟩
  constructor
  · intro hmiss
    rcases hmiss with hm | hm | hm <;> subst hm
    · simp [rd_kafka_sasl_aws_msk_iam_client_new]
    · cases ak <;> simp [rd_kafka_sasl_aws_msk_iam_client_new]
    · cases ak <;> cases sk <;> simp [rd_kafka_sasl_aws_msk_iam_client_new]
  · intro k s r hk hs hr
    subst hk; subst hs; subst hr
    constructor
    · intro hsts htok
      subst hsts; subst htok
      simp [rd_kafka_sasl_aws_msk_iam_client_new]
    · intro htok
      cases sts with
      | false => simp [rd_kafka_sasl_aws_msk_iam_client_new]
      | true =>
          cases tok with
          | none => exact absurd rfl (htok rfl)
          | some t => simp [rd_kafka_sasl_aws_msk_iam_client_new]

/-- Witness for C8: an empty handle is refused with the no-credentials
error; a fully populated handle with STS off yields the snapshot. -/
theorem C8_witness :
    rd_kafka_sasl_aws_msk_iam_client_new
        ⟨none, none, none, none, none⟩ false "b1.example"
      = .error ("AWS_MSK_IAM cannot log in because there "
                ++ "is no credentials available; last error: "
                ++ "(not available)") ∧
    rd_kafka_sasl_aws_msk_iam_client_new
        ⟨some "AK", some "SK", some "us-east-1", none, none⟩ false "b1.example"
      = .ok ⟨"b1.example", "AK", "SK", "us-east-1", none⟩ := by
  constructor
  · exact (C8_theorem ⟨none, none, none, none, none⟩ false "b1.example").1
      (Or.inl rfl)
  · exact ((C8_theorem ⟨some "AK", some "SK", some "us-east-1", none, none⟩
      false "b1.example").2 "AK" "SK" "us-east-1" rfl rfl rfl).2
      (fun hf => by cases hf)

end RdkafkaAws

namespace RdkafkaAws

/-- C9: the refresher sets the credential expiry unconditionally to
`now_ms + duration_sec * 1000` before the STS call; the response handler
overwrites it with the unix-millisecond conversion of the `Expiration` text
only when that field is present, parses, and yields a positive epoch; when
the field is absent, unparseable, or non-positive the pre-computed fallback
is what remains installed. -/
theorem C9_theorem (now_us duration_sec : Int) (exp : Option String) :
    rd_kafka_aws_msk_iam_credential_refresh0_lifetime now_us duration_sec
      = now_us / 1000 + duration_sec * 1000 ∧
    (exp = none →
      refresh_installed_lifetime now_us duration_sec exp
        = rd_kafka_aws_msk_iam_credential_refresh0_lifetime now_us duration_sec) ∧
    (∀ s, exp = some s → parseExpiration s = none →
      refresh_installed_lifetime now_us duration_sec exp
        = rd_kafka_aws_msk_iam_credential_refresh0_lifetime now_us duration_sec) ∧
    (∀ s y mo d hh mi ss, exp = some s →
      parseExpiration s = some (y, mo, d, hh, mi, ss) →
      0 < epochSecUTC y mo d hh mi ss →
      refresh_installed_lifetime now_us duration_sec exp
        = epochSecUTC y mo d hh mi ss * 1000) ∧
    (∀ s y mo d hh mi ss, exp = some s →
      parseExpiration s = some (y, mo, d, hh, mi, ss) →
      ¬ 0 < epochSecUTC y mo d hh mi ss →
      refresh_installed_lifetime now_us duration_sec exp
        = rd_kafka_aws_msk_iam_credential_refresh0_lifetime now_us duration_sec) := by
  refine ⟨rfl, ?_, ?_, ?_, ?_⟩
  · intro he
    subst he
    rfl
  · intro s he hp
    subst he
    simp [refresh_installed_lifetime, rd_kafka_aws_send_request_lifetime, hp]
  · intro s y mo d hh mi ss he hp hpos
    subst he
    simp [refresh_installed_lifetime, rd_kafka_aws_send_request_lifetime, hp, hpos]
  · intro s y mo d hh mi ss he hp hpos
    subst he
    simp [refresh_installed_lifetime, rd_kafka_aws_send_request_lifetime, hp, hpos]

/-- Witness for C9: the timestamp 2021-09-10T19:07:14Z parses and converts
to unix epoch 1631300834, so the installed lifetime is 1631300834000 ms and
not the fallback; with no Expiration the fallback now/1000 + 900*1000 is
installed. -/
theorem C9_witness :
    refresh_installed_lifetime 5000000 900 (some "2021-09-10T19:07:14Z")
      = 1631300834000 ∧
    refresh_installed_lifetime 5000000 900 none = 5000 + 900 * 1000 := by
  constructor
  · have h := (C9_theorem 5000000 900 (some "2021-09-10T19:07:14Z")).2.2.2.1
      "2021-09-10T19:07:14Z" 2021 9 10 19 7 14 rfl (by decide) (by decide)
    rw [h]
    decide
  · have h := (C9_theorem 5000000 900 none).2.1 rfl
    rw [h]
    decide

end RdkafkaAws

namespace RdkafkaAws

lemma uriEncode_unreserved_list : ∀ l : List Char,
    (∀ c ∈ l, uriUnreserved c.toNat = true) →
    (l.map Char.toNat).flatMap uriEncodeByte = l := by
  intro l
  induction l with
  | nil => intro _; rfl
  | cons c t ih =>
      intro hall
      have hc : uriUnreserved c.toNat = true := hall c (by simp)
      have ht := ih (fun d hd => hall d (by simp [hd]))
      simp only [List.map_cons, List.flatMap_cons, uriEncodeByte, hc, if_true,
                 Char.ofNat_toNat, List.singleton_append, ht]

/-- C5: URI encoding leaves any string of unreserved bytes unchanged,
replaces every byte outside the unreserved set by a percent escape with
uppercase hexadecimal digits, and on the concrete test string
"testString-123/*&" produces "testString-123%2F%2A%26". -/
theorem C5_theorem :
    (∀ s : String, (∀ c ∈ s.data, uriUnreserved c.toNat = true) →
      rd_kafka_aws_uri_encode s = s) ∧
    (∀ b, uriUnreserved b = true → uriEncodeByte b = [Char.ofNat b]) ∧
    (∀ b, b < 256 → uriUnreserved b = false →
      uriEncodeByte b = ['%', hexDigitUpper (b / 16), hexDigitUpper (b % 16)] ∧
      hexDigitUpper (b / 16) ∈ uppercaseHexChars ∧
      hexDigitUpper (b % 16) ∈ uppercaseHexChars) ∧
    rd_kafka_aws_uri_encode "testString-123/*&" = "testString-123%2F%2A%26" := by
  refine ⟨?_, ?_, ?_, by decide⟩
  · intro s hall
    have h := uriEncode_unreserved_list s.data hall
    show (⟨(s.data.map Char.toNat).flatMap uriEncodeByte⟩ : String) = s
    rw [h]
  · intro b hb
    simp [uriEncodeByte, hb]
  · intro b hlt hb
    exact ⟨by simp [uriEncodeByte, hb], hexDigitUpper_mem _ (by omega),
           hexDigitUpper_mem _ (Nat.mod_lt _ (by norm_num))⟩

/-- Witness for C5: an all-unreserved string is fixed, and the slash byte
47 escapes to the uppercase-hex sequence. -/
theorem C5_witness :
    rd_kafka_aws_uri_encode "abc" = "abc" ∧
    uriEncodeByte 47 = ['%', '2', 'F'] := by
  constructor
  · exact C5_theorem.1 "abc" (by decide)
  · have h := (C5_theorem.2.2.1 47 (by norm_num) (by decide)).1
    rw [h]
    decide

/-- C3: the canonical request is the method, the literal canonical URI "/",
the query string, the canonical headers, the signed headers and the
lowercase-hex SHA-256 of the request body, joined by single newlines; for an
empty body the final line is the well-known empty-input digest. -/
theorem C3_theorem (method cqs ch sh body : String) :
    rd_kafka_aws_build_canonical_request method cqs ch sh body
      = method ++ "\n" ++ "/" ++ "\n" ++ cqs ++ "\n" ++ ch ++ "\n" ++ sh ++ "\n"
        ++ bytesToHexLower (sha256 (strBytes body)) ∧
    rd_kafka_aws_build_canonical_request method cqs ch sh ""
      = method ++ "\n" ++ "/" ++ "\n" ++ cqs ++ "\n" ++ ch ++ "\n" ++ sh ++ "\n"
        ++ "e3b0c44298fc1c149afbf4c8996fb92427ae41e4649b934ca495991b7852b855" := by
  constructor
  · rfl
  · have h : bytesToHexLower (sha256 (strBytes ""))
        = "e3b0c44298fc1c149afbf4c8996fb92427ae41e4649b934ca495991b7852b855" := by
      decide
    calc rd_kafka_aws_build_canonical_request method cqs ch sh ""
        = method ++ "\n" ++ "/" ++ "\n" ++ cqs ++ "\n" ++ ch ++ "\n" ++ sh
          ++ "\n" ++ bytesToHexLower (sha256 (strBytes "")) := rfl
      _ = _ := by rw [h]

end RdkafkaAws

namespace RdkafkaAws

/-- C4: the SASL canonical query string is emitted in the fixed order
Action, X-Amz-Algorithm, X-Amz-Credential, X-Amz-Date, X-Amz-Expires=900,
then X-Amz-Security-Token exactly when a session token is present, then
X-Amz-SignedHeaders=host, with the Credential, Date and Security-Token
values URI-encoded; and the JSON payload carries the raw, un-encoded
session token in its x-amz-security-token field exactly when a token is
present. -/
theorem C4_theorem :
    (∀ action akid region ymd hms service t,
      rd_kafka_aws_build_sasl_canonical_querystring action akid region ymd hms
          service (some t)
        = "Action=" ++ rd_kafka_aws_uri_encode action ++ "&"
          ++ "X-Amz-Algorithm=AWS4-HMAC-SHA256&"
          ++ "X-Amz-Credential="
          ++ rd_kafka_aws_uri_encode
               (akid ++ "/"
                ++ rd_kafka_aws_construct_credential_scope ymd region service)
          ++ "&"
          ++ "X-Amz-Date="
          ++ rd_kafka_aws_uri_encode (rd_kafka_aws_construct_amz_date ymd hms)
          ++ "&"
          ++ "X-Amz-Expires=900&"
          ++ ("X-Amz-Security-Token=" ++ rd_kafka_aws_uri_encode t ++ "&")
          ++ "X-Amz-SignedHeaders=host") ∧
    (∀ action akid region ymd hms service,
      rd_kafka_aws_build_sasl_canonical_querystring action akid region ymd hms
          service none
        = "Action=" ++ rd_kafka_aws_uri_encode action ++ "&"
          ++ "X-Amz-Algorithm=AWS4-HMAC-SHA256&"
          ++ "X-Amz-Credential="
          ++ rd_kafka_aws_uri_encode
               (akid ++ "/"
                ++ rd_kafka_aws_construct_credential_scope ymd region service)
          ++ "&"
          ++ "X-Amz-Date="
          ++ rd_kafka_aws_uri_encode (rd_kafka_aws_construct_amz_date ymd hms)
          ++ "&"
          ++ "X-Amz-Expires=900&"
          ++ "X-Amz-SignedHeaders=host") ∧
    (∀ ymd hms host akid secret t region service method algorithm ch cqs sh rp,
      rd_kafka_aws_build_sasl_payload ymd hms host akid secret (some t) region
          service method algorithm ch cqs sh rp
        = "\x7b\"version\":\"2020_10_22\","
          ++ "\"host\":\"" ++ host ++ "\","
          ++ "\"user-agent\":\"librdkafka\","
          ++ "\"action\":\"" ++ "kafka-cluster:Connect" ++ "\","
          ++ "\"x-amz-algorithm\":\"AWS4-HMAC-SHA256\","
          ++ "\"x-amz-credential\":\"" ++ akid ++ "/"
          ++ rd_kafka_aws_construct_credential_scope ymd region service ++ "\","
          ++ "\"x-amz-date\":\""
          ++ rd_kafka_aws_construct_amz_date ymd hms ++ "\","
          ++ ("\"x-amz-security-token\":\"" ++ t ++ "\",")
          ++ "\"x-amz-signedheaders\":\"host\","
          ++ "\"x-amz-expires\":\"900\","
          ++ "\"x-amz-signature\":\""
          ++ rd_kafka_aws_build_signature secret region ymd service
               (rd_kafka_aws_build_string_to_sign algorithm
                 (rd_kafka_aws_construct_credential_scope ymd region service)
                 (rd_kafka_aws_construct_amz_date ymd hms)
                 (rd_kafka_aws_build_canonical_request method cqs ch sh rp))
          ++ "\"\x7d") ∧
    (∀ ymd hms host akid secret region service method algorithm ch cqs sh rp,
      rd_kafka_aws_build_sasl_payload ymd hms host akid secret none region
          service method algorithm ch cqs sh rp
        = "\x7b\"version\":\"2020_10_22\","
          ++ "\"host\":\"" ++ host ++ "\","
          ++ "\"user-agent\":\"librdkafka\","
          ++ "\"action\":\"" ++ "kafka-cluster:Connect" ++ "\","
          ++ "\"x-amz-algorithm\":\"AWS4-HMAC-SHA256\","
          ++ "\"x-amz-credential\":\"" ++ akid ++ "/"
          ++ rd_kafka_aws_construct_credential_scope ymd region service ++ "\","
          ++ "\"x-amz-date\":\""
          ++ rd_kafka_aws_construct_amz_date ymd hms ++ "\","
          ++ "\"x-amz-signedheaders\":\"host\","
          ++ "\"x-amz-expires\":\"900\","
          ++ "\"x-amz-signature\":\""
          ++ rd_kafka_aws_build_signature secret region ymd service
               (rd_kafka_aws_build_string_to_sign algorithm
                 (rd_kafka_aws_construct_credential_scope ymd region service)
                 (rd_kafka_aws_construct_amz_date ymd hms)
                 (rd_kafka_aws_build_canonical_request method cqs ch sh rp))
          ++ "\"\x7d") := by
  refine ⟨fun _ _ _ _ _ _ _ => rfl, ?_, fun _ _ _ _ _ _ _ _ _ _ _ _ _ _ => rfl, ?_⟩
  · intro action akid region ymd hms service
    simp only [rd_kafka_aws_build_sasl_canonical_querystring,
               String.append_empty]
  · intro ymd hms host akid secret region service method algorithm ch cqs sh rp
    simp only [rd_kafka_aws_build_sasl_payload, String.append_empty]

end RdkafkaAws

namespace RdkafkaAws

/-- The scenario-2 canonical request: the byte-exact canonical GET request
for the kafka-cluster Connect case with access key AWS_ACCESS_KEY_ID,
region us-east-1, date 20100101/000000, host "hostname", no session token
and empty body. -/
def scenario2CanonicalRequest : String :=
  "GET\n/\nAction=kafka-cluster%3AConnect&X-Amz-Algorithm=AWS4-HMAC-SHA256&X-Amz-Credential=AWS_ACCESS_KEY_ID%2F20100101%2Fus-east-1%2Fkafka-cluster%2Faws4_request&X-Amz-Date=20100101T000000Z&X-Amz-Expires=900&X-Amz-SignedHeaders=host\nhost:hostname\n\nhost\ne3b0c44298fc1c149afbf4c8996fb92427ae41e4649b934ca495991b7852b855"

/-- The string-to-sign built from the scenario-2 canonical request. -/
def scenario2StringToSign : String :=
  rd_kafka_aws_build_string_to_sign "AWS4-HMAC-SHA256"
    (rd_kafka_aws_construct_credential_scope "20100101" "us-east-1" "kafka-cluster")
    (rd_kafka_aws_construct_amz_date "20100101" "000000")
    scenario2CanonicalRequest

set_option maxRecDepth 1000000 in
/-- C2: the signer derives k_date, k_region, k_service and k_signing by the
nested HMAC-SHA-256 chain keyed by the byte concatenation "AWS4" + secret
and returns the lowercase-hex rendering of hmac(k_signing, string_to_sign),
a string that always has exactly 64 characters, all lowercase hex digits
(the function is pure, hence deterministic across runs); on the scenario-2
inputs the signature is the expected constant. -/
theorem C2_theorem :
    (∀ secret region ymd service sts_input : String,
      rd_kafka_aws_build_signature secret region ymd service sts_input
        = bytesToHexLower (hmacSha256
            (hmacSha256 (hmacSha256 (hmacSha256
              (hmacSha256 (strBytes ("AWS4" ++ secret)) (strBytes ymd))
              (strBytes region)) (strBytes service))
              (strBytes "aws4_request"))
            (strBytes sts_input)) ∧
      (rd_kafka_aws_build_signature secret region ymd service sts_input).length
        = 64 ∧
      (∀ c ∈ (rd_kafka_aws_build_signature secret region ymd service
          sts_input).data, c ∈ lowercaseHexChars)) ∧
    rd_kafka_aws_build_signature "AWS_SECRET_ACCESS_KEY" "us-east-1" "20100101"
        "kafka-cluster" scenario2StringToSign
      = "d3eeeddfb2c2b76162d583d7499c2364eb9a92b248218e31866659b18997ef44" := by
  constructor
  · intro secret region ymd service sts_input
    refine ⟨rfl, rfl, ?_⟩
    intro c hc
    exact mem_bytesToHexLower _ (hmacSha256_lt _ _) c hc
  · decide

set_option maxRecDepth 1000000 in
/-- Witness for C2: the signature of the all-empty input starts with the
lowercase hex digit a, and the membership component of the theorem applies
to it. -/
theorem C2_witness :
    'a' ∈ (rd_kafka_aws_build_signature "" "" "" "" "").data ∧
    'a' ∈ lowercaseHexChars := by
  have hm : 'a' ∈ (rd_kafka_aws_build_signature "" "" "" "" "").data := by
    decide
  exact ⟨hm, (C2_theorem.1 "" "" "" "" "").2.2 'a' hm⟩

end RdkafkaAws
